import Mathlib

/-!
A verification development for the configuration layer of the `apca`
crate (`src/api_info.rs`): the `ApiInfo` value type and its two
constructors `from_parts` and `from_env`, embedded shallowly in Lean.

Machine strings are Lean `String`s; the process environment is an
explicit function from variable names to optional OS strings; fallible
operations return `Except`.
-/

namespace Apca

/-! ## Model of the external URL-parsing collaborator

`ApiInfo` stores a `url::Url` produced by `url::Url::parse`.  The `url`
crate is an external dependency (an implementation of the WHATWG URL
standard); we model the fragment of its behaviour that the configuration
layer exercises: scheme validation, authority parsing for the special
web schemes, lower-casing of scheme and host, and serialization with an
empty path normalized to "/".  A parsed URL is represented by its
serialization, which is what `Url::as_str` exposes. -/

/-- Parse errors of the modelled URL parser (a subset of
`url::ParseError`). -/
inductive ParseError where
  | RelativeUrlWithoutBase
  | EmptyHost
deriving DecidableEq, Repr

/-- A parsed URL, represented by its normalized serialization, as in the
`url` crate where `Url::as_str` returns the stored serialization. -/
structure Url where
  serialization : String
deriving DecidableEq, Repr

/-- The textual form of the stored URL, as `Url::as_str` returns it. -/
def Url.as_str (u : Url) : String := u.serialization

/-- First code point of a scheme: an ASCII alphabetic character. -/
def isSchemeStartChar (c : Char) : Bool := c.isAlpha

/-- Subsequent code points of a scheme: ASCII alphanumeric, `+`, `-`, `.`. -/
def isSchemeChar (c : Char) : Bool :=
  c.isAlphanum || c = '+' || c = '-' || c = '.'

/-- Split the input at the first `:`; fails when a non-scheme character
appears before any `:` or when no `:` occurs. -/
def splitScheme : List Char → Option (List Char × List Char)
  | [] => none
  | c :: rest =>
    if c = ':' then some ([], rest)
    else if isSchemeChar c then
      match splitScheme rest with
      | some (sch, r) => some (c :: sch, r)
      | none => none
    else none

/-- The special (web) schemes whose URLs carry an authority. -/
def specialSchemes : List String := ["http", "https", "ws", "wss", "ftp"]

/-- A character ending the host portion of an authority. -/
def isHostEnd (c : Char) : Bool := c = '/' || c = '?' || c = '#'

/-- Model of `url::Url::parse`: strip leading/trailing C0 controls and
spaces, parse and lower-case the scheme, and for special schemes skip
slashes, take a non-empty host (lower-cased), and serialize with an
empty path rendered as "/"; other schemes keep their remainder verbatim
after the colon. -/
def Url.parse (input : String) : Except ParseError Url :=
  let cs := (input.toList.dropWhile (fun c => c.toNat ≤ 0x20)).reverse
    |>.dropWhile (fun c => c.toNat ≤ 0x20) |>.reverse
  match cs with
  | [] => .error .RelativeUrlWithoutBase
  | c :: _ =>
    if isSchemeStartChar c then
      match splitScheme cs with
      | none => .error .RelativeUrlWithoutBase
      | some (sch, rest) =>
        let scheme : String := ⟨sch.map Char.toLower⟩
        if specialSchemes.contains scheme then
          let afterSlashes := rest.dropWhile (fun ch => ch = '/' || ch = '\\')
          let host := afterSlashes.takeWhile (fun ch => !isHostEnd ch)
          let remainder := afterSlashes.dropWhile (fun ch => !isHostEnd ch)
          if host.isEmpty then .error .EmptyHost
          else
            let path : List Char :=
              match remainder with
              | [] => ['/']
              | '/' :: _ => remainder
              | _ => '/' :: remainder
            .ok ⟨scheme ++ "://" ++ ⟨host.map Char.toLower⟩ ++ ⟨path⟩⟩
        else
          .ok ⟨scheme ++ ":" ++ ⟨rest⟩⟩
    else .error .RelativeUrlWithoutBase

/-! ## Model of OS strings and the process environment

`std::env::var_os` yields `Option<OsString>`, and `OsString::into_string`
fails when the raw bytes are not valid text. -/

/-- An OS string: either valid text or undecodable raw bytes. -/
inductive OsString where
  | valid (s : String)
  | invalid (bytes : List Nat)
deriving DecidableEq, Repr

/-- Conversion of an OS string into text (`OsString::into_string`), with
the error payload dropped (the code only maps it to a fixed message). -/
def OsString.into_string : OsString → Option String
  | .valid s => some s
  | .invalid _ => none

/-- The process environment: a map from variable names to their values,
read by `std::env::var_os`. -/
def Env := String → Option OsString

/-! ## The configuration layer (`src/api_info.rs`) -/

/-- Name of the environment variable for the base URL (`ENV_API_BASE_URL`). -/
def ENV_API_BASE_URL : String := "APCA_API_BASE_URL"

/-- Name of the environment variable for the key ID (`ENV_KEY_ID`). -/
def ENV_KEY_ID : String := "APCA_API_KEY_ID"

/-- Name of the environment variable for the secret key (`ENV_SECRET`). -/
def ENV_SECRET : String := "APCA_API_SECRET_KEY"

/-- Modelled from the spec: `crate::api::API_BASE_URL`, the fixed
default production endpoint constant, lives outside the visible
`src/api_info.rs`; the spec calls it "a fixed default production
endpoint string". -/
def API_BASE_URL : String := "https://api.alpaca.markets/"

/-- Modelled from the spec: `crate::Error` is declared outside the
visible source.  The spec requires a URL-parse variant wrapping the
parser's diagnostic and "a generic wrapped/string-carrying error
variant" used with a human-readable message naming the failing entry;
`from_env` constructs `Error::Str(...)` and `?` converts
`url::ParseError` into the URL variant. -/
inductive Error where
  | Str (msg : String)
  | Url (err : ParseError)
deriving DecidableEq, Repr

/-- The validated connection configuration (`ApiInfo`). -/
structure ApiInfo where
  api_base_url : Url
  key_id : String
  secret : String
deriving DecidableEq, Repr

/-- Constructor `ApiInfo::from_parts`: parse the base URL, store the
credential strings verbatim. -/
def ApiInfo.from_parts (api_base_url key_id secret : String) :
    Except Error ApiInfo :=
  match Url.parse api_base_url with
  | .error e => .error (.Url e)
  | .ok u => .ok ⟨u, key_id, secret⟩

/-- Constructor `ApiInfo::from_env`: read the three environment entries,
with the default base URL substituted when `ENV_API_BASE_URL` is absent,
in the order written in the source. -/
def ApiInfo.from_env (env : Env) : Except Error ApiInfo :=
  match ((env ENV_API_BASE_URL).getD (OsString.valid API_BASE_URL)).into_string with
  | none =>
    .error (.Str (ENV_API_BASE_URL ++ " environment variable is not a valid string"))
  | some api_base_url =>
    match Url.parse api_base_url with
    | .error e => .error (.Url e)
    | .ok api_base_url =>
      match env ENV_KEY_ID with
      | none => .error (.Str (ENV_KEY_ID ++ " environment variable not found"))
      | some os =>
        match os.into_string with
        | none =>
          .error (.Str (ENV_KEY_ID ++ " environment variable is not a valid string"))
        | some key_id =>
          match env ENV_SECRET with
          | none => .error (.Str (ENV_SECRET ++ " environment variable not found"))
          | some os' =>
            match os'.into_string with
            | none =>
              .error (.Str (ENV_SECRET ++ " environment variable is not a valid string"))
            | some secret => .ok ⟨api_base_url, key_id, secret⟩

/-! ## The four validation steps of `from_env`, as independent functions

Each function below is the corresponding step of `from_env` cut out of
the source on its own, used to state the eager, first-failure ordering
of the constructor. -/

/-- Step 1 of `from_env`: resolve the base-URL entry to text, with the
default substituted when the entry is absent. -/
def resolveBaseUrlText (env : Env) : Except Error String :=
  match ((env ENV_API_BASE_URL).getD (OsString.valid API_BASE_URL)).into_string with
  | none =>
    .error (.Str (ENV_API_BASE_URL ++ " environment variable is not a valid string"))
  | some s => .ok s

/-- Step 2 of `from_env`: parse the resolved base-URL text. -/
def parseBaseUrl (s : String) : Except Error Url :=
  match Url.parse s with
  | .error e => .error (.Url e)
  | .ok u => .ok u

/-- Step 3 of `from_env`: the key-id entry must be present and decode. -/
def lookupKeyId (env : Env) : Except Error String :=
  match env ENV_KEY_ID with
  | none => .error (.Str (ENV_KEY_ID ++ " environment variable not found"))
  | some os =>
    match os.into_string with
    | none => .error (.Str (ENV_KEY_ID ++ " environment variable is not a valid string"))
    | some k => .ok k

/-- Step 4 of `from_env`: the secret entry must be present and decode. -/
def lookupSecret (env : Env) : Except Error String :=
  match env ENV_SECRET with
  | none => .error (.Str (ENV_SECRET ++ " environment variable not found"))
  | some os =>
    match os.into_string with
    | none => .error (.Str (ENV_SECRET ++ " environment variable is not a valid string"))
    | some s => .ok s

/-! ## Concrete environments used to instantiate the theorems -/

/-- An environment with all three entries set to the values of the
repository test `tests::from_parts`. -/
def envFull : Env := fun n =>
  if n = ENV_API_BASE_URL then some (.valid "https://paper-api.alpaca.markets/")
  else if n = ENV_KEY_ID then some (.valid "XXXXXXXXXXXXXXXXXXXX")
  else if n = ENV_SECRET then some (.valid "YYYYYYYYYYYYYYYYYYYYYYYYYYYYYYYYYYYYYYYY")
  else none

/-- An environment with the base-URL entry absent and valid credentials. -/
def envNoBase : Env := fun n =>
  if n = ENV_KEY_ID then some (.valid "mykey")
  else if n = ENV_SECRET then some (.valid "mysecret")
  else none

/-- The empty environment. -/
def envEmpty : Env := fun _ => none

/-- An environment whose base-URL entry holds unparsable text while the
key-id entry is absent and the secret entry is valid. -/
def envBadUrlNoKey : Env := fun n =>
  if n = ENV_API_BASE_URL then some (.valid "not a url")
  else if n = ENV_SECRET then some (.valid "mysecret")
  else none

/-- The environment `envFull` extended with an unrelated variable. -/
def envFullExtra : Env := fun n =>
  if n = "HOME" then some (.valid "/home/user") else envFull n

/-! ## Helper lemmas -/

instance {e a : Type} [DecidableEq e] [DecidableEq a] : DecidableEq (Except e a) :=
  fun x y =>
    match x, y with
    | .ok u, .ok v => decidable_of_iff (u = v) (by simp)
    | .error u, .error v => decidable_of_iff (u = v) (by simp)
    | .ok _, .error _ => isFalse (by simp)
    | .error _, .ok _ => isFalse (by simp)

/-- Every error value `from_env` can return is one of the five entry-naming
messages or a wrapped URL-parse diagnostic. -/
theorem from_env_error_enum (env : Env) (e : Error)
    (h : ApiInfo.from_env env = .error e) :
    e = .Str (ENV_API_BASE_URL ++ " environment variable is not a valid string") ∨
    (∃ pe, e = .Url pe) ∨
    e = .Str (ENV_KEY_ID ++ " environment variable not found") ∨
    e = .Str (ENV_KEY_ID ++ " environment variable is not a valid string") ∨
    e = .Str (ENV_SECRET ++ " environment variable not found") ∨
    e = .Str (ENV_SECRET ++ " environment variable is not a valid string") := by
  cases hb : ((env ENV_API_BASE_URL).getD (OsString.valid API_BASE_URL)).into_string with
  | none =>
    simp only [ApiInfo.from_env, hb, Except.error.injEq] at h
    exact Or.inl h.symm
  | some b =>
    cases hu : Url.parse b with
    | error pe =>
      simp only [ApiInfo.from_env, hb, hu, Except.error.injEq] at h
      exact Or.inr (Or.inl ⟨pe, h.symm⟩)
    | ok u =>
      cases hk : env ENV_KEY_ID with
      | none =>
        simp only [ApiInfo.from_env, hb, hu, hk, Except.error.injEq] at h
        exact Or.inr (Or.inr (Or.inl h.symm))
      | some os =>
        cases hko : os.into_string with
        | none =>
          simp only [ApiInfo.from_env, hb, hu, hk, hko, Except.error.injEq] at h
          exact Or.inr (Or.inr (Or.inr (Or.inl h.symm)))
        | some k =>
          cases hs : env ENV_SECRET with
          | none =>
            simp only [ApiInfo.from_env, hb, hu, hk, hko, hs, Except.error.injEq] at h
            exact Or.inr (Or.inr (Or.inr (Or.inr (Or.inl h.symm))))
          | some os2 =>
            cases hso : os2.into_string with
            | none =>
              simp only [ApiInfo.from_env, hb, hu, hk, hko, hs, hso, Except.error.injEq] at h
              exact Or.inr (Or.inr (Or.inr (Or.inr (Or.inr h.symm))))
            | some sec =>
              simp only [ApiInfo.from_env, hb, hu, hk, hko, hs, hso] at h
              exact Except.noConfusion h

/-! ## The claims -/

/-- Claim C1: when all three environment entries are present and decode
as valid text, `from_env` returns exactly the same result — the same
success value, or the same error — as `from_parts` applied to those
three string values. -/
theorem claim_C1_from_env_matches_from_parts (env : Env) (b k s : String)
    (hb : env ENV_API_BASE_URL = some (.valid b))
    (hk : env ENV_KEY_ID = some (.valid k))
    (hs : env ENV_SECRET = some (.valid s)) :
    ApiInfo.from_env env = ApiInfo.from_parts b k s := by
  cases hu : Url.parse b <;>
    simp only [ApiInfo.from_env, ApiInfo.from_parts, hb, hk, hs, hu,
      Option.getD_some, OsString.into_string]

/-- Witness for claim C1 at the values of the repository test. -/
theorem claim_C1_witness :
    ApiInfo.from_env envFull =
      ApiInfo.from_parts "https://paper-api.alpaca.markets/" "XXXXXXXXXXXXXXXXXXXX"
        "YYYYYYYYYYYYYYYYYYYYYYYYYYYYYYYYYYYYYYYY" :=
  claim_C1_from_env_matches_from_parts envFull _ _ _ rfl rfl rfl

/-- Counterexample to claim C2 as stated: with the key-id entry absent
but the base-URL entry holding unparsable text, `from_env` reports the
URL parse failure, not the missing key-id entry. -/
theorem claim_C2_counterexample :
    envBadUrlNoKey ENV_KEY_ID = none ∧
    ApiInfo.from_env envBadUrlNoKey = .error (.Url .RelativeUrlWithoutBase) ∧
    ApiInfo.from_env envBadUrlNoKey ≠
      .error (.Str (ENV_KEY_ID ++ " environment variable not found")) :=
  ⟨rfl, rfl, by decide⟩

/-- Claim C2 (amended): if the key-id entry is absent and the resolved
base-URL text decodes and parses successfully, `from_env` fails with the
message naming the key-id entry, regardless of the state of the secret
entry. -/
theorem claim_C2_missing_key_id (env : Env) (b : String) (u : Url)
    (hb : ((env ENV_API_BASE_URL).getD (OsString.valid API_BASE_URL)).into_string = some b)
    (hu : Url.parse b = .ok u)
    (hk : env ENV_KEY_ID = none) :
    ApiInfo.from_env env =
      .error (.Str (ENV_KEY_ID ++ " environment variable not found")) := by
  simp only [ApiInfo.from_env, hb, hu, hk]

/-- Witness for claim C2 (amended) at the empty environment, where the
base URL falls back to the default. -/
theorem claim_C2_witness :
    ApiInfo.from_env envEmpty =
      .error (.Str (ENV_KEY_ID ++ " environment variable not found")) :=
  claim_C2_missing_key_id envEmpty API_BASE_URL ⟨"https://api.alpaca.markets/"⟩ rfl rfl rfl

/-- Claim C3: for every string that parses as a URL and all credential
strings, `from_parts` succeeds and stores the parsed URL and both
credential strings verbatim. -/
theorem claim_C3_from_parts_verbatim (u k s : String) (url : Url)
    (h : Url.parse u = .ok url) :
    ApiInfo.from_parts u k s = .ok ⟨url, k, s⟩ := by
  simp only [ApiInfo.from_parts, h]

/-- Witness for claim C3, with both credential strings empty. -/
theorem claim_C3_witness :
    ApiInfo.from_parts "https://paper-api.alpaca.markets/" "" "" =
      .ok ⟨⟨"https://paper-api.alpaca.markets/"⟩, "", ""⟩ :=
  claim_C3_from_parts_verbatim "https://paper-api.alpaca.markets/" "" ""
    ⟨"https://paper-api.alpaca.markets/"⟩ rfl

/-- Claim C4: `from_parts` fails exactly when URL parsing fails, and
then with the wrapped parser diagnostic; no credential strings can cause
a failure. -/
theorem claim_C4_from_parts_error (u k s : String) :
    (∀ e, Url.parse u = .error e → ApiInfo.from_parts u k s = .error (.Url e)) ∧
    (∀ e, ApiInfo.from_parts u k s = .error e →
      ∃ pe, e = .Url pe ∧ Url.parse u = .error pe) ∧
    ((∃ info, ApiInfo.from_parts u k s = .ok info) ↔ ∃ url, Url.parse u = .ok url) := by
  refine ⟨fun e he => by simp only [ApiInfo.from_parts, he], fun e he => ?_, ?_⟩
  · cases hp : Url.parse u with
    | error pe =>
      simp only [ApiInfo.from_parts, hp, Except.error.injEq] at he
      exact ⟨pe, he.symm, rfl⟩
    | ok url =>
      simp only [ApiInfo.from_parts, hp] at he
      exact Except.noConfusion he
  · constructor
    · rintro ⟨info, hi⟩
      cases hp : Url.parse u with
      | error pe =>
        simp only [ApiInfo.from_parts, hp] at hi
        exact Except.noConfusion hi
      | ok url => exact ⟨url, rfl⟩
    · rintro ⟨url, hp⟩
      exact ⟨⟨url, k, s⟩, by simp only [ApiInfo.from_parts, hp]⟩

/-- Witness for claim C4 on the spec scenario string "not a url". -/
theorem claim_C4_witness :
    ApiInfo.from_parts "not a url" "anykey" "anysecret" =
      .error (.Url .RelativeUrlWithoutBase) :=
  (claim_C4_from_parts_error "not a url" "anykey" "anysecret").1 .RelativeUrlWithoutBase rfl

/-- Claim C5: with the base-URL entry absent, `from_env` substitutes the
default endpoint and succeeds when key id and secret are present and
valid; and no environment makes `from_env` report the base-URL entry as
missing. -/
theorem claim_C5_default_base_url :
    (∀ (env : Env) (k s : String), env ENV_API_BASE_URL = none →
      env ENV_KEY_ID = some (.valid k) → env ENV_SECRET = some (.valid s) →
      ApiInfo.from_env env = .ok ⟨⟨"https://api.alpaca.markets/"⟩, k, s⟩) ∧
    (∀ env : Env, ApiInfo.from_env env ≠
      .error (.Str (ENV_API_BASE_URL ++ " environment variable not found"))) := by
  constructor
  · intro env k s hb hk hs
    simp only [ApiInfo.from_env, hb, hk, hs, Option.getD_none, OsString.into_string,
      show Url.parse API_BASE_URL = .ok ⟨"https://api.alpaca.markets/"⟩ from rfl]
  · intro env h
    rcases from_env_error_enum env _ h with h1 | ⟨pe, h2⟩ | h3 | h4 | h5 | h6
    · exact absurd h1 (by decide)
    · exact Error.noConfusion h2
    · exact absurd h3 (by decide)
    · exact absurd h4 (by decide)
    · exact absurd h5 (by decide)
    · exact absurd h6 (by decide)

/-- Witness for claim C5: the default applies in `envNoBase`, and the
fully-set `envFull` cannot yield a missing-base-URL message. -/
theorem claim_C5_witness :
    ApiInfo.from_env envNoBase =
      .ok ⟨⟨"https://api.alpaca.markets/"⟩, "mykey", "mysecret"⟩ ∧
    ApiInfo.from_env envFull ≠
      .error (.Str (ENV_API_BASE_URL ++ " environment variable not found")) :=
  ⟨claim_C5_default_base_url.1 envNoBase "mykey" "mysecret" rfl rfl rfl,
   claim_C5_default_base_url.2 envFull⟩

/-- Claim C6: `from_env` is the eager sequential composition of its four
validation steps — resolve the base-URL text, parse it, fetch the key
id, fetch the secret — so for every environment the result is the error
of the first failing step, and later steps cannot contribute. -/
theorem claim_C6_eager_order (env : Env) :
    ApiInfo.from_env env =
      (resolveBaseUrlText env).bind fun b =>
      (parseBaseUrl b).bind fun u =>
      (lookupKeyId env).bind fun k =>
      (lookupSecret env).bind fun s =>
      Except.ok ⟨u, k, s⟩ := by
  cases hb : ((env ENV_API_BASE_URL).getD (OsString.valid API_BASE_URL)).into_string with
  | none => simp only [ApiInfo.from_env, resolveBaseUrlText, hb, Except.bind]
  | some b =>
    cases hu : Url.parse b with
    | error pe =>
      simp only [ApiInfo.from_env, resolveBaseUrlText, parseBaseUrl, hb, hu, Except.bind]
    | ok u =>
      cases hk : env ENV_KEY_ID with
      | none =>
        simp only [ApiInfo.from_env, resolveBaseUrlText, parseBaseUrl, lookupKeyId,
          hb, hu, hk, Except.bind]
      | some os =>
        cases hko : os.into_string with
        | none =>
          simp only [ApiInfo.from_env, resolveBaseUrlText, parseBaseUrl, lookupKeyId,
            hb, hu, hk, hko, Except.bind]
        | some k =>
          cases hs : env ENV_SECRET with
          | none =>
            simp only [ApiInfo.from_env, resolveBaseUrlText, parseBaseUrl, lookupKeyId,
              lookupSecret, hb, hu, hk, hko, hs, Except.bind]
          | some os2 =>
            cases hso : os2.into_string with
            | none =>
              simp only [ApiInfo.from_env, resolveBaseUrlText, parseBaseUrl, lookupKeyId,
                lookupSecret, hb, hu, hk, hko, hs, hso, Except.bind]
            | some sec =>
              simp only [ApiInfo.from_env, resolveBaseUrlText, parseBaseUrl, lookupKeyId,
                lookupSecret, hb, hu, hk, hko, hs, hso, Except.bind]

/-- Claim C7: every `from_env` error is of one of the three kinds — a
wrapped URL-parse diagnostic, a missing-variable message, or an
invalid-encoding message, the messages carrying the offending entry
name — and all the error forms are pairwise distinct. -/
theorem claim_C7_error_taxonomy :
    (∀ (env : Env) (e : Error), ApiInfo.from_env env = .error e →
      (∃ pe, e = .Url pe) ∨
      (e = .Str (ENV_KEY_ID ++ " environment variable not found") ∨
       e = .Str (ENV_SECRET ++ " environment variable not found")) ∨
      (e = .Str (ENV_API_BASE_URL ++ " environment variable is not a valid string") ∨
       e = .Str (ENV_KEY_ID ++ " environment variable is not a valid string") ∨
       e = .Str (ENV_SECRET ++ " environment variable is not a valid string"))) ∧
    List.Pairwise (· ≠ ·)
      [Error.Str (ENV_API_BASE_URL ++ " environment variable is not a valid string"),
       Error.Str (ENV_KEY_ID ++ " environment variable not found"),
       Error.Str (ENV_KEY_ID ++ " environment variable is not a valid string"),
       Error.Str (ENV_SECRET ++ " environment variable not found"),
       Error.Str (ENV_SECRET ++ " environment variable is not a valid string"),
       Error.Url .RelativeUrlWithoutBase, Error.Url .EmptyHost] := by
  constructor
  · intro env e h
    rcases from_env_error_enum env e h with h1 | h2 | h3 | h4 | h5 | h6
    · exact Or.inr (Or.inr (Or.inl h1))
    · exact Or.inl h2
    · exact Or.inr (Or.inl (Or.inl h3))
    · exact Or.inr (Or.inr (Or.inr (Or.inl h4)))
    · exact Or.inr (Or.inl (Or.inr h5))
    · exact Or.inr (Or.inr (Or.inr (Or.inr h6)))
  · decide

/-- Witness for claim C7 at the empty environment, whose error is the
missing key-id message. -/
theorem claim_C7_witness :
    (∃ pe, Error.Str (ENV_KEY_ID ++ " environment variable not found") = .Url pe) ∨
    (Error.Str (ENV_KEY_ID ++ " environment variable not found") =
       .Str (ENV_KEY_ID ++ " environment variable not found") ∨
     Error.Str (ENV_KEY_ID ++ " environment variable not found") =
       .Str (ENV_SECRET ++ " environment variable not found")) ∨
    (Error.Str (ENV_KEY_ID ++ " environment variable not found") =
       .Str (ENV_API_BASE_URL ++ " environment variable is not a valid string") ∨
     Error.Str (ENV_KEY_ID ++ " environment variable not found") =
       .Str (ENV_KEY_ID ++ " environment variable is not a valid string") ∨
     Error.Str (ENV_KEY_ID ++ " environment variable not found") =
       .Str (ENV_SECRET ++ " environment variable is not a valid string")) :=
  claim_C7_error_taxonomy.1 envEmpty
    (.Str (ENV_KEY_ID ++ " environment variable not found")) rfl

/-- Claim C8: a value produced by either constructor holds a URL the
parser accepted, with the credential fields set from the validated
inputs; a failing call yields an error and no value at all. -/
theorem claim_C8_valid_url_invariant :
    (∀ (u k s : String) (info : ApiInfo), ApiInfo.from_parts u k s = .ok info →
      Url.parse u = .ok info.api_base_url ∧ info.key_id = k ∧ info.secret = s) ∧
    (∀ (env : Env) (info : ApiInfo), ApiInfo.from_env env = .ok info →
      ∃ b, Url.parse b = .ok info.api_base_url) := by
  constructor
  · intro u k s info h
    cases hp : Url.parse u with
    | error pe =>
      simp only [ApiInfo.from_parts, hp] at h
      exact Except.noConfusion h
    | ok url =>
      simp only [ApiInfo.from_parts, hp, Except.ok.injEq] at h
      subst h
      exact ⟨rfl, rfl, rfl⟩
  · intro env info h
    cases hb : ((env ENV_API_BASE_URL).getD (OsString.valid API_BASE_URL)).into_string with
    | none =>
      simp only [ApiInfo.from_env, hb] at h
      exact Except.noConfusion h
    | some b =>
      cases hu : Url.parse b with
      | error pe =>
        simp only [ApiInfo.from_env, hb, hu] at h
        exact Except.noConfusion h
      | ok u =>
        cases hk : env ENV_KEY_ID with
        | none =>
          simp only [ApiInfo.from_env, hb, hu, hk] at h
          exact Except.noConfusion h
        | some os =>
          cases hko : os.into_string with
          | none =>
            simp only [ApiInfo.from_env, hb, hu, hk, hko] at h
            exact Except.noConfusion h
          | some k =>
            cases hs : env ENV_SECRET with
            | none =>
              simp only [ApiInfo.from_env, hb, hu, hk, hko, hs] at h
              exact Except.noConfusion h
            | some os2 =>
              cases hso : os2.into_string with
              | none =>
                simp only [ApiInfo.from_env, hb, hu, hk, hko, hs, hso] at h
                exact Except.noConfusion h
              | some sec =>
                simp only [ApiInfo.from_env, hb, hu, hk, hko, hs, hso,
                  Except.ok.injEq] at h
                subst h
                exact ⟨b, hu⟩

/-- Witness for claim C8 on a concrete successful `from_parts` call. -/
theorem claim_C8_witness :
    Url.parse "https://paper-api.alpaca.markets/" =
      .ok (ApiInfo.mk ⟨"https://paper-api.alpaca.markets/"⟩ "id" "pw").api_base_url ∧
    (ApiInfo.mk ⟨"https://paper-api.alpaca.markets/"⟩ "id" "pw").key_id = "id" ∧
    (ApiInfo.mk ⟨"https://paper-api.alpaca.markets/"⟩ "id" "pw").secret = "pw" :=
  claim_C8_valid_url_invariant.1 "https://paper-api.alpaca.markets/" "id" "pw"
    (ApiInfo.mk ⟨"https://paper-api.alpaca.markets/"⟩ "id" "pw") rfl

/-- Claim C9: URL parsing normalizes the textual form — on
"https://paper-api.alpaca.markets" (no trailing slash) `from_parts`
succeeds but stores a URL whose text differs from the input, while the
already-normalized test string round-trips exactly. -/
theorem claim_C9_url_normalization :
    (ApiInfo.from_parts "https://paper-api.alpaca.markets" "k" "s" =
      .ok ⟨⟨"https://paper-api.alpaca.markets/"⟩, "k", "s"⟩) ∧
    Url.as_str ⟨"https://paper-api.alpaca.markets/"⟩ ≠ "https://paper-api.alpaca.markets" ∧
    (ApiInfo.from_parts "https://paper-api.alpaca.markets/" "XXXXXXXXXXXXXXXXXXXX"
        "YYYYYYYYYYYYYYYYYYYYYYYYYYYYYYYYYYYYYYYY" =
      .ok ⟨⟨"https://paper-api.alpaca.markets/"⟩, "XXXXXXXXXXXXXXXXXXXX",
        "YYYYYYYYYYYYYYYYYYYYYYYYYYYYYYYYYYYYYYYY"⟩) ∧
    Url.as_str ⟨"https://paper-api.alpaca.markets/"⟩ = "https://paper-api.alpaca.markets/" :=
  ⟨rfl, by decide, rfl, rfl⟩

/-- Claim C10: the result of `from_env` depends only on the three named
entries — two environments agreeing on them yield identical results. -/
theorem claim_C10_noninterference (env1 env2 : Env)
    (hb : env1 ENV_API_BASE_URL = env2 ENV_API_BASE_URL)
    (hk : env1 ENV_KEY_ID = env2 ENV_KEY_ID)
    (hs : env1 ENV_SECRET = env2 ENV_SECRET) :
    ApiInfo.from_env env1 = ApiInfo.from_env env2 := by
  unfold ApiInfo.from_env
  rw [hb, hk, hs]

/-- Witness for claim C10: adding an unrelated variable to `envFull`
leaves the result unchanged. -/
theorem claim_C10_witness :
    envFull "HOME" ≠ envFullExtra "HOME" ∧
    ApiInfo.from_env envFull = ApiInfo.from_env envFullExtra :=
  ⟨by decide, claim_C10_noninterference envFull envFullExtra rfl rfl rfl⟩

end Apca
